import Mathlib

/-!
Shallow embedding of `src/pg-data-validator.py`: a declarative data-quality
validation engine for PostgreSQL.  Scalar values coming from queries or the
JSON configuration are modelled by `Val` (Python `None`, `int`, `str`); a row
is a tuple of such values.  A live database connection is modelled by `Db`,
mapping a query string to either its result rows or a query-execution error
(`none`, standing for a raised exception), plus the catalog view consulted by
the TABLE_EXISTS executor.  Each executor is translated function by function
from the source; exceptions that the Python code catches internally are
represented by `Option`/error constructors, and the one exception the
dispatcher does not catch (a `KeyError` on a PRINTER check without a `query`
key, line 175) is an `Except.error` of the dispatcher.
-/

namespace PgDataValidator

/-- A scalar value: Python `None`, `int` or `str` (the types that appear in
query results and in the JSON config). -/
inductive Val where
  | null : Val
  | int : Int → Val
  | str : String → Val
deriving DecidableEq

/-- A result row: a tuple of scalar values. -/
abbrev Row := List Val

/-- Python `operator.eq` on our values: equality is defined across types and
never raises (`1 == "a"` is `False`). -/
def pyEq (a b : Val) : Option Bool := some (decide (a = b))

/-- Python `operator.ne`. -/
def pyNe (a b : Val) : Option Bool := some (decide (a ≠ b))

/-- Python `operator.lt`: defined on int/int and str/str, raises `TypeError`
(modelled `none`) on mixed or `None` operands. -/
def pyLt : Val → Val → Option Bool
  | .int a, .int b => some (decide (a < b))
  | .str a, .str b => some (decide (a < b))
  | _, _ => none

/-- Python `operator.le`. -/
def pyLe : Val → Val → Option Bool
  | .int a, .int b => some (decide (a ≤ b))
  | .str a, .str b => some (decide (a ≤ b))
  | _, _ => none

/-- Python `operator.gt`. -/
def pyGt : Val → Val → Option Bool
  | .int a, .int b => some (decide (a > b))
  | .str a, .str b => some (decide (a > b))
  | _, _ => none

/-- Python `operator.ge`. -/
def pyGe : Val → Val → Option Bool
  | .int a, .int b => some (decide (a ≥ b))
  | .str a, .str b => some (decide (a ≥ b))
  | _, _ => none

/-- The operator registry (source lines 14–21): maps the six comparison
symbols to their binary comparison functions; any other symbol (the
`dict.get` miss) yields `none`. -/
def OPERATORS (s : String) : Option (Val → Val → Option Bool) :=
  if s = "=" then some pyEq
  else if s = "!=" then some pyNe
  else if s = ">" then some pyGt
  else if s = ">=" then some pyGe
  else if s = "<" then some pyLt
  else if s = "<=" then some pyLe
  else none

/-- A live connection handle.  `runQuery q` is `cursor.execute(q)` followed by
a fetch: `none` models a raised query error, `some rows` the result set.
`catalog schema` is the `information_schema.tables` query issued by
`run_table_exists` (source lines 72–79): the names of the base tables of that
schema, or `none` if that catalog query itself raises. -/
structure Db where
  runQuery : String → Option (List Row)
  catalog : String → Option (List String)

/-- The observable outcome of one executor call: its boolean return value
together with the diagnostic it logs. -/
inductive CheckResult where
  | printerOk (rowCount : Nat) : CheckResult
  | printerError : CheckResult
  | passed : CheckResult
  | failedMissingTables (missing : List String) : CheckResult
  | failedTableExistsError : CheckResult
  | failedUnsupportedOperator (op : Option String) : CheckResult
  | failedNoRows : CheckResult
  | failedComparison (actual : Val) : CheckResult
  | failedCountError : CheckResult
  | failedMissingValues (missing : Finset Row) : CheckResult
  | failedIncludesError : CheckResult
deriving DecidableEq

/-- `run_printer` (source lines 48–63): execute the query and log every row;
any exception is caught and logged. It has no pass/fail criterion. -/
def run_printer (db : Db) (query : String) : CheckResult :=
  match db.runQuery query with
  | none => .printerError
  | some rows => .printerOk rows.length

/-- `run_table_exists` (source lines 65–91): list the base tables of
`schema`, compute the required tables missing from them (a list filter, so
input order is kept), pass iff none are missing.  A raised catalog-query
error is caught and returns `False`. -/
def run_table_exists (db : Db) (required_tables : List String)
    (schema : String := "public") : CheckResult :=
  match db.catalog schema with
  | none => .failedTableExistsError
  | some existing =>
    let existing_tables : Finset String := existing.toFinset
    let missing_tables := required_tables.filter (fun t => t ∉ existing_tables)
    if missing_tables = [] then .passed
    else .failedMissingTables missing_tables

/-- `run_count_check` (source lines 93–119).  The second component is the
list of queries actually issued to the database by the call (the trace of
`cursor.execute`).  `op_str` and `query` are `Option`s because the dispatcher
passes `validator.get(...)`; executing a `None` query raises a `TypeError`
before anything reaches the server.  A `fetchone()` of `None` is the
"no rows" failure; an out-of-range `result[0]` or a `TypeError` raised by the
comparison itself is caught by the blanket `except` (lines 117–119). -/
def run_count_check (db : Db) (query : Option String) (value : Val)
    (op_str : Option String) : CheckResult × List String :=
  match op_str.bind OPERATORS with
  | none => (.failedUnsupportedOperator op_str, [])
  | some op_func =>
    match query with
    | none => (.failedCountError, [])
    | some q =>
      match db.runQuery q with
      | none => (.failedCountError, [q])
      | some rows =>
        match rows.head? with
        | none => (.failedNoRows, [q])
        | some row =>
          match row.head? with
          | none => (.failedCountError, [q])
          | some actual_value =>
            match op_func actual_value value with
            | none => (.failedCountError, [q])
            | some true => (.passed, [q])
            | some false => (.failedComparison actual_value, [q])

/-- `run_includes_check` (source lines 120–145): collect the actual rows and
the expected rows into sets, compute `expected − actual`, pass iff it is
empty; on failure the logged diagnostic is that set of missing tuples. -/
def run_includes_check (db : Db) (query : Option String)
    (expected_values : List Row) : CheckResult :=
  match query with
  | none => .failedIncludesError
  | some q =>
    match db.runQuery q with
    | none => .failedIncludesError
    | some actual_rows =>
      let actual_set : Finset Row := actual_rows.toFinset
      let expected_set : Finset Row := expected_values.toFinset
      let missing := expected_set \ actual_set
      if missing = ∅ then .passed
      else .failedMissingValues missing

/-- The `connection` object of a database entry (source §config, lines
28–34): descriptor fields plus the optional default `schema`. -/
structure ConnConfig where
  host : String
  port : Int
  dbname : String
  user : String
  password : String
  schema : Option String := none
deriving DecidableEq

/-- One check object of a `validation` sequence, as the dict the dispatcher
reads: the `type` tag plus the kind-specific fields, each `Option`al exactly
where the code reads it with `dict.get`.  The `schema` field is the
check-level schema the configuration format of §3/§6 allows on a
TABLE_EXISTS check. -/
structure CheckSpec where
  vtype : String
  query : Option String := none
  description : Option String := none
  required_tables : List String := []
  schema : Option String := none
  value : Val := .null
  operator : Option String := none
  values : List Row := []
deriving DecidableEq

/-- The schema the dispatcher hands to `run_table_exists` (source line 177):
`conn_config.get("schema", "public")`. -/
def resolved_schema (conn_config : ConnConfig) : String :=
  conn_config.schema.getD "public"

/-- The schema resolution §4.3 of the specification describes: the schema on
the check itself if present, else the schema of the database entry, else
`"public"`.  Stated from the words of the spec, to be compared with
`resolved_schema`. -/
def spec_resolved_schema (check : CheckSpec) (conn_config : ConnConfig) :
    String :=
  ((check.schema).orElse (fun _ => conn_config.schema)).getD "public"

/-- One iteration of the dispatcher loop (source lines 172–194): route the
check by its `type` tag.  `Except.error ()` is the uncaught `KeyError` of
`validator["query"]` on a PRINTER check without a `query` key (line 175);
`.ok none` is the fall-through of the `if/elif` chain — a check whose type
is none of the four known kinds runs nothing and produces nothing. -/
def runCheck (conn_config : ConnConfig) (db : Db) (v : CheckSpec) :
    Except Unit (Option CheckResult) :=
  if v.vtype = "PRINTER" then
    match v.query with
    | none => .error ()
    | some q => .ok (some (run_printer db q))
  else if v.vtype = "TABLE_EXISTS" then
    .ok (some (run_table_exists db v.required_tables (resolved_schema conn_config)))
  else if v.vtype = "COUNT_CHECK" then
    .ok (some (run_count_check db v.query v.value v.operator).1)
  else if v.vtype = "INCLUDES_CHECK" then
    .ok (some (run_includes_check db v.query v.values))
  else
    .ok none

/-- The dispatcher (the `for validator in validations` loop, source lines
172–194): run the checks in declaration order; an uncaught exception aborts
the remainder. -/
def runValidations (conn_config : ConnConfig) (db : Db) :
    List CheckSpec → Except Unit (List (Option CheckResult))
  | [] => .ok []
  | v :: vs =>
    match runCheck conn_config db v with
    | .error e => .error e
    | .ok r =>
      match runValidations conn_config db vs with
      | .error e => .error e
      | .ok rs => .ok (r :: rs)

/-- One entry of the `databases` sequence of the configuration. -/
structure DatabaseEntry where
  connection : ConnConfig
  validation : List CheckSpec := []

/-- The external connector: `psycopg.connect` plus the `search_path` setup of
`create_connection` (source lines 23–43); `none` is a raised connection
error. -/
def Connector := ConnConfig → Option Db

/-- How a run ends: `completed` normally, `exited` through the `sys.exit(1)`
of `create_connection` (source line 46), or `crashed` on the uncaught
dispatcher `KeyError`.  Each carries the per-database result lists of the
databases fully processed before the run ended. -/
inductive RunOutcome where
  | completed : List (List (Option CheckResult)) → RunOutcome
  | exited : List (List (Option CheckResult)) → RunOutcome
  | crashed : List (List (Option CheckResult)) → RunOutcome
deriving DecidableEq

/-- The orchestrator loop of `main` (source lines 166–197): for each database
entry, `create_connection` — which on any connection failure logs and calls
`sys.exit(1)`, ending the whole process — then the dispatcher over its
checks. -/
def main_loop (connect : Connector) : List DatabaseEntry → RunOutcome
  | [] => .completed []
  | d :: rest =>
    match connect d.connection with
    | none => .exited []
    | some db =>
      match runValidations d.connection db d.validation with
      | .error _ => .crashed []
      | .ok results =>
        match main_loop connect rest with
        | .completed reps => .completed (results :: reps)
        | .exited reps => .exited (results :: reps)
        | .crashed reps => .crashed (results :: reps)

/-- The result the dispatcher loop records for one check: the outcome of the
routed executor, or nothing when the kind is unknown (or the loop crashed on
this check). -/
def checkOutput (conn_config : ConnConfig) (db : Db) (v : CheckSpec) :
    Option CheckResult :=
  ((runCheck conn_config db v).toOption).join

/-- The per-check outputs of a validation sequence, each computed from its
own check alone. -/
def dispatchResults (conn_config : ConnConfig) (db : Db)
    (vs : List CheckSpec) : List (Option CheckResult) :=
  vs.map (checkOutput conn_config db)

/-- The mathematical relation denoted by a comparison-operator symbol, stated
from the words of §4.1/§8 of the specification (the corresponding total-order
relation over two values of one comparable type), to be compared with the
behaviour of `OPERATORS`. -/
def specRel {α : Type} [LinearOrder α] (s : String) (a b : α) : Prop :=
  if s = "=" then a = b
  else if s = "!=" then a ≠ b
  else if s = ">" then a > b
  else if s = ">=" then a ≥ b
  else if s = "<" then a < b
  else if s = "<=" then a ≤ b
  else False

/-! Concrete fixtures: a small database handle, connection configs, check
specs and database entries used to instantiate the theorems below. -/

/-- A concrete handle: a `users` table with two rows, an empty table, a
single-string-column query, and a catalog where schema `s1` holds table `t`,
schema `s2` holds nothing and `public` holds `orders`. -/
def exampleDb : Db where
  runQuery := fun q =>
    if q = "SELECT count(*) FROM users" then some [[.int 5]]
    else if q = "SELECT count(*) FROM empty_t" then some []
    else if q = "SELECT id, name FROM users" then
      some [[.int 1, .str "a"], [.int 2, .str "b"]]
    else if q = "SELECT name FROM names" then some [[.str "x"]]
    else none
  catalog := fun s =>
    if s = "s1" then some ["t"]
    else if s = "s2" then some []
    else if s = "public" then some ["orders"]
    else none

/-- A connection config whose entry-level schema is `s2`. -/
def ccMain : ConnConfig :=
  { host := "localhost", port := 5432, dbname := "appdb", user := "u",
    password := "pw", schema := some "s2" }

/-- A connection config with no entry-level schema. -/
def ccNoSchema : ConnConfig :=
  { host := "localhost", port := 5432, dbname := "appdb", user := "u",
    password := "pw" }

/-- A connection config the example connector refuses. -/
def ccBad : ConnConfig :=
  { host := "down.example", port := 5432, dbname := "bad", user := "u",
    password := "pw" }

/-- A connector that fails exactly on `ccBad` and otherwise yields
`exampleDb`. -/
def exampleConnector : Connector :=
  fun cc => if cc.dbname = "bad" then none else some exampleDb

/-- A TABLE_EXISTS check that itself names schema `s1` and requires table
`t`. -/
def schemaCheck : CheckSpec :=
  { vtype := "TABLE_EXISTS", required_tables := ["t"], schema := some "s1" }

/-- A check whose type tag is none of the four known kinds. -/
def unknownCheck : CheckSpec := { vtype := "ROW_COUNT" }

/-- A COUNT_CHECK: count of `users` (5) must be at least 3. -/
def countCheck5 : CheckSpec :=
  { vtype := "COUNT_CHECK", query := some "SELECT count(*) FROM users",
    value := .int 3, operator := some ">=" }

/-- A database entry whose connection fails. -/
def entryBad : DatabaseEntry :=
  { connection := ccBad, validation := [countCheck5] }

/-- A database entry whose connection succeeds. -/
def entryGood : DatabaseEntry :=
  { connection := ccNoSchema, validation := [countCheck5] }

/-- A COUNT_CHECK whose query raises on `exampleDb` (no such relation). -/
def errorCheck : CheckSpec :=
  { vtype := "COUNT_CHECK", query := some "SELECT broken FROM nowhere",
    value := .int 0, operator := some "=" }

/-- A handle on which every query and catalog lookup raises. -/
def noDb : Db where
  runQuery := fun _ => none
  catalog := fun _ => none

/-- C1, counterexample.  The claim says a failed connection is recorded as a
database-level failure, the run continues with the subsequent databases and
the process is not terminated.  On a configuration of two databases whose
first connection fails, `main_loop` instead ends in `RunOutcome.exited []`:
`create_connection` calls `sys.exit(1)` (source line 46), so the process
terminates, no failure entry is recorded, and the second database
(`entryGood`, whose connection and check would succeed) is never
processed. -/
theorem C1_counterexample :
    main_loop exampleConnector [entryBad, entryGood] = RunOutcome.exited [] :=
  rfl

/-- C1, amended: if connecting to a database fails, the run does not record
a database-level failure and does not continue — `create_connection` logs the
error and terminates the whole process via `sys.exit(1)`, so no report is
produced for that database or for any subsequent database. -/
theorem C1_connection_failure_exits (connect : Connector) (d : DatabaseEntry)
    (rest : List DatabaseEntry) (h : connect d.connection = none) :
    main_loop connect (d :: rest) = RunOutcome.exited [] := by
  unfold main_loop
  rw [h]

/-- C1, witness for the amended theorem at a concrete configuration. -/
theorem C1_witness :
    main_loop exampleConnector [entryBad] = RunOutcome.exited [] :=
  C1_connection_failure_exits exampleConnector entryBad [] rfl

/-- C2, counterexample.  The claim says a check of unknown type yields a
check result marked as a configuration error.  The `if/elif` chain of the
dispatcher (source lines 174–194) has no `else` branch: on `unknownCheck`
(type `ROW_COUNT`) it produces no result at all (`none`) — the check is
silently skipped, which the claim explicitly rules out.  The second conjunct
shows the skip in context: a two-check list yields `none` for the unknown
check, followed by the normal result of the next check. -/
theorem C2_counterexample :
    runCheck ccMain exampleDb unknownCheck = .ok none ∧
    runValidations ccMain exampleDb [unknownCheck, schemaCheck] =
      .ok [none, some (.failedMissingTables ["t"])] :=
  ⟨rfl, rfl⟩

/-- C2, amended: a check whose declared type is none of PRINTER,
TABLE_EXISTS, COUNT_CHECK, INCLUDES_CHECK is silently skipped — nothing is
executed and no check result of any kind is produced — and the dispatcher
continues with the next check. -/
theorem C2_unknown_kind_skipped (cc : ConnConfig) (db : Db) (v : CheckSpec)
    (vs : List CheckSpec)
    (h : v.vtype ∉ (["PRINTER", "TABLE_EXISTS", "COUNT_CHECK",
      "INCLUDES_CHECK"] : List String)) :
    runCheck cc db v = .ok none ∧
    runValidations cc db (v :: vs) =
      (runValidations cc db vs).map (fun rs => none :: rs) := by
  simp only [List.mem_cons, List.not_mem_nil, or_false, not_or] at h
  obtain ⟨h1, h2, h3, h4⟩ := h
  have hv : runCheck cc db v = .ok none := by
    simp [runCheck, h1, h2, h3, h4]
  refine ⟨hv, ?_⟩
  simp only [runValidations, hv]
  cases hrv : runValidations cc db vs <;> simp [Except.map]

/-- C2, witness for the amended theorem at a concrete unknown check. -/
theorem C2_witness :
    runCheck ccMain exampleDb unknownCheck = .ok none ∧
    runValidations ccMain exampleDb [unknownCheck, schemaCheck] =
      (runValidations ccMain exampleDb [schemaCheck]).map
        (fun rs => none :: rs) :=
  C2_unknown_kind_skipped ccMain exampleDb unknownCheck [schemaCheck]
    (by decide)

/-- C3, counterexample.  The claim says the schema named on the check itself
takes precedence.  `schemaCheck` names schema `s1` (whose catalog holds the
required table `t`), while the connection config names `s2` (empty catalog).
Under the claimed resolution (`spec_resolved_schema`) the effective schema is
`s1` and the check would pass; the dispatcher (source line 177) reads only
`conn_config.get("schema", "public")`, runs against `s2`, and the check fails
with `t` missing — the check-level schema is ignored. -/
theorem C3_counterexample :
    spec_resolved_schema schemaCheck ccMain = "s1" ∧
    run_table_exists exampleDb ["t"] "s1" = .passed ∧
    runCheck ccMain exampleDb schemaCheck =
      .ok (some (.failedMissingTables ["t"])) :=
  ⟨rfl, rfl, rfl⟩

/-- C3, amended: for every TABLE_EXISTS check the effective schema is the
schema configured on the database entry if present, otherwise `"public"`;
a schema specified on the check itself is never consulted (the right-hand
side does not depend on `v.schema`). -/
theorem C3_schema_resolution (cc : ConnConfig) (db : Db) (v : CheckSpec)
    (h : v.vtype = "TABLE_EXISTS") :
    runCheck cc db v =
      .ok (some (run_table_exists db v.required_tables
        (cc.schema.getD "public"))) := by
  simp [runCheck, h, resolved_schema]

/-- C3, witness for the amended theorem: `schemaCheck` (check-level schema
`s1`) under `ccMain` (entry-level schema `s2`). -/
theorem C3_witness :
    runCheck ccMain exampleDb schemaCheck =
      .ok (some (run_table_exists exampleDb schemaCheck.required_tables
        (ccMain.schema.getD "public"))) :=
  C3_schema_resolution ccMain exampleDb schemaCheck rfl

/-- When the operator symbol resolves and the query yields a first row with a
first column, the count check passes exactly when the resolved comparison
function answers `some true`. -/
lemma count_pass_iff (db : Db) (q : String) (s : String)
    (f : Val → Val → Option Bool) (actual value : Val) (row : Row)
    (rest : List Row) (hf : OPERATORS s = some f)
    (hq : db.runQuery q = some ((actual :: row) :: rest)) :
    ((run_count_check db (some q) value (some s)).1 = .passed ↔
      f actual value = some true) := by
  simp only [run_count_check, Option.some_bind, hf, hq, List.head?]
  rcases hfv : f actual value with _ | b
  · simp
  · cases b <;> simp

/-- C4: for each of the six operator symbols, a COUNT_CHECK whose query
returns an actual value of the same comparable type as the target passes
exactly when the mathematical relation holds — stated both for integer
values and for string values (the two comparable scalar types of the
model). -/
theorem C4_count_check_operator_semantics (db : Db) (qi qs : String)
    (s : String) (a b : Int) (u v : String) (ra : Row) (la : List Row)
    (ru : Row) (lu : List Row)
    (hs : s ∈ (["=", "!=", ">", ">=", "<", "<="] : List String))
    (hqa : db.runQuery qi = some ((Val.int a :: ra) :: la))
    (hqu : db.runQuery qs = some ((Val.str u :: ru) :: lu)) :
    ((run_count_check db (some qi) (Val.int b) (some s)).1 = .passed ↔
      specRel s a b) ∧
    ((run_count_check db (some qs) (Val.str v) (some s)).1 = .passed ↔
      specRel s u v) := by
  fin_cases hs
  · exact ⟨(count_pass_iff db qi "=" pyEq _ _ _ _ rfl hqa).trans
        (by simp [pyEq, specRel]),
      (count_pass_iff db qs "=" pyEq _ _ _ _ rfl hqu).trans
        (by simp [pyEq, specRel])⟩
  · exact ⟨(count_pass_iff db qi "!=" pyNe _ _ _ _ rfl hqa).trans
        (by simp [pyNe, specRel]),
      (count_pass_iff db qs "!=" pyNe _ _ _ _ rfl hqu).trans
        (by simp [pyNe, specRel])⟩
  · exact ⟨(count_pass_iff db qi ">" pyGt _ _ _ _ rfl hqa).trans
        (by simp [pyGt, specRel]),
      (count_pass_iff db qs ">" pyGt _ _ _ _ rfl hqu).trans
        (by simp [pyGt, specRel])⟩
  · exact ⟨(count_pass_iff db qi ">=" pyGe _ _ _ _ rfl hqa).trans
        (by simp [pyGe, specRel]),
      (count_pass_iff db qs ">=" pyGe _ _ _ _ rfl hqu).trans
        (by simp [pyGe, specRel])⟩
  · exact ⟨(count_pass_iff db qi "<" pyLt _ _ _ _ rfl hqa).trans
        (by simp [pyLt, specRel]),
      (count_pass_iff db qs "<" pyLt _ _ _ _ rfl hqu).trans
        (by simp [pyLt, specRel])⟩
  · exact ⟨(count_pass_iff db qi "<=" pyLe _ _ _ _ rfl hqa).trans
        (by simp [pyLe, specRel]),
      (count_pass_iff db qs "<=" pyLe _ _ _ _ rfl hqu).trans
        (by simp [pyLe, specRel])⟩

/-- C4, witness: count 5 ≥ 3 passes, and `"x" = "a"` is settled by the same
theorem for the string instance. -/
theorem C4_witness :
    ((run_count_check exampleDb (some "SELECT count(*) FROM users")
        (Val.int 3) (some ">=")).1 = .passed ↔ specRel ">=" (5 : Int) 3) ∧
    ((run_count_check exampleDb (some "SELECT name FROM names")
        (Val.str "a") (some ">=")).1 = .passed ↔ specRel ">=" "x" "a") :=
  C4_count_check_operator_semantics exampleDb
    "SELECT count(*) FROM users" "SELECT name FROM names" ">="
    5 3 "x" "a" [] [] [] [] (by decide) rfl rfl

/-- A symbol other than the six supported ones resolves to nothing in the
operator registry. -/
lemma OPERATORS_eq_none (s : String)
    (hs : s ∉ (["=", "!=", ">", ">=", "<", "<="] : List String)) :
    OPERATORS s = none := by
  simp only [List.mem_cons, List.not_mem_nil, or_false, not_or] at hs
  obtain ⟨h1, h2, h3, h4, h5, h6⟩ := hs
  simp [OPERATORS, h1, h2, h3, h4, h5, h6]

/-- C5: for every operator symbol outside the six supported ones, the
COUNT_CHECK executor returns the failed result with the unsupported-operator
diagnostic (and, the model being total, no exception reaches the caller). -/
theorem C5_unsupported_operator_fails (db : Db) (query : Option String)
    (value : Val) (s : String)
    (hs : s ∉ (["=", "!=", ">", ">=", "<", "<="] : List String)) :
    run_count_check db query value (some s) =
      (.failedUnsupportedOperator (some s), []) := by
  simp [run_count_check, OPERATORS_eq_none s hs]

/-- C5, witness at the unsupported symbol `contains`. -/
theorem C5_witness :
    run_count_check exampleDb (some "SELECT count(*) FROM users")
      (Val.int 3) (some "contains") =
      (.failedUnsupportedOperator (some "contains"), []) :=
  C5_unsupported_operator_fails exampleDb
    (some "SELECT count(*) FROM users") (Val.int 3) "contains" (by decide)

/-- C6: a COUNT_CHECK (with a supported operator) whose query returns an
empty result set returns the failed result with the no-rows diagnostic —
`fetchone()` returning `None` is handled explicitly (source lines 107–109),
not raised. -/
theorem C6_no_rows_fails (db : Db) (q : String) (value : Val) (s : String)
    (f : Val → Val → Option Bool) (hf : OPERATORS s = some f)
    (hq : db.runQuery q = some []) :
    (run_count_check db (some q) value (some s)).1 = .failedNoRows := by
  simp [run_count_check, hf, hq]

/-- C6, witness on the empty table. -/
theorem C6_witness :
    (run_count_check exampleDb (some "SELECT count(*) FROM empty_t")
      (Val.int 3) (some ">=")).1 = .failedNoRows :=
  C6_no_rows_fails exampleDb "SELECT count(*) FROM empty_t" (Val.int 3)
    ">=" pyGe rfl rfl

/-- C7: when the catalog lists `existing` for the schema, TABLE_EXISTS
returns pass or the missing-tables diagnostic — the required names not among
the existing tables, in input order (a `filter` of the input list); it passes
exactly when the set difference required − existing is empty; and an empty
required-table list always passes. -/
theorem C7_table_exists_semantics (db : Db) (schema : String)
    (required existing : List String)
    (h : db.catalog schema = some existing) :
    (run_table_exists db required schema =
      if required.filter (fun t => t ∉ existing) = [] then .passed
      else .failedMissingTables (required.filter (fun t => t ∉ existing))) ∧
    (run_table_exists db required schema = .passed ↔
      required.toFinset \ existing.toFinset = ∅) ∧
    run_table_exists db ([] : List String) schema = .passed := by
  have hfil : required.filter (fun t => t ∉ existing.toFinset) =
      required.filter (fun t => t ∉ existing) := by
    simp [List.mem_toFinset]
  have h1 : run_table_exists db required schema =
      if required.filter (fun t => t ∉ existing) = [] then .passed
      else .failedMissingTables (required.filter (fun t => t ∉ existing)) := by
    simp only [run_table_exists, h, hfil]
  have key : (required.filter (fun t => t ∉ existing) = []) ↔
      required.toFinset \ existing.toFinset = ∅ := by
    simp [List.filter_eq_nil_iff, Finset.sdiff_eq_empty_iff_subset,
      Finset.subset_iff, List.mem_toFinset]
  refine ⟨h1, ?_, by simp [run_table_exists, h]⟩
  rw [h1, ← key]
  split_ifs with hc <;> simp [hc] <;> simpa using hc

/-- C7, witness: requiring `orders` and `users` when only `orders` exists in
`public` fails with missing list `["users"]` (the `if` evaluates to the
failure branch), and the empty requirement passes. -/
theorem C7_witness :
    (run_table_exists exampleDb ["orders", "users"] "public" =
      if (["orders", "users"].filter
          (fun t => t ∉ (["orders"] : List String))) = [] then .passed
      else .failedMissingTables (["orders", "users"].filter
          (fun t => t ∉ (["orders"] : List String)))) ∧
    (run_table_exists exampleDb ["orders", "users"] "public" = .passed ↔
      (["orders", "users"] : List String).toFinset \
        (["orders"] : List String).toFinset = ∅) ∧
    run_table_exists exampleDb ([] : List String) "public" = .passed :=
  C7_table_exists_semantics exampleDb "public" ["orders", "users"]
    ["orders"] rfl

/-- C8: INCLUDES_CHECK passes exactly when every expected tuple appears at
least once among the actual rows (set inclusion — so actual rows forming a
strict superset still pass); on failure the diagnostic is the set
`expected − actual` of missing tuples; and the outcome only depends on the
two inputs through their sets, so permuting or duplicating rows of either
input (any change preserving `toFinset`) leaves the result unchanged. -/
theorem C8_includes_check_semantics (db db2 : Db) (q q2 : String)
    (expected expected2 actual actual2 : List Row)
    (hq : db.runQuery q = some actual)
    (hq2 : db2.runQuery q2 = some actual2)
    (he : expected.toFinset = expected2.toFinset)
    (ha : actual.toFinset = actual2.toFinset) :
    (run_includes_check db (some q) expected =
      if expected.toFinset \ actual.toFinset = ∅ then .passed
      else .failedMissingValues (expected.toFinset \ actual.toFinset)) ∧
    (run_includes_check db (some q) expected = .passed ↔
      expected.toFinset ⊆ actual.toFinset) ∧
    run_includes_check db (some q) expected =
      run_includes_check db2 (some q2) expected2 := by
  have h1 : run_includes_check db (some q) expected =
      if expected.toFinset \ actual.toFinset = ∅ then .passed
      else .failedMissingValues (expected.toFinset \ actual.toFinset) := by
    simp only [run_includes_check, hq]
  have h2 : run_includes_check db2 (some q2) expected2 =
      if expected2.toFinset \ actual2.toFinset = ∅ then .passed
      else .failedMissingValues (expected2.toFinset \ actual2.toFinset) := by
    simp only [run_includes_check, hq2]
  refine ⟨h1, ?_, ?_⟩
  · rw [h1, ← Finset.sdiff_eq_empty_iff_subset]
    split_ifs with hc <;> simp [hc]
  · rw [h1, h2, he, ha]

/-- C8, witness on the example of §8 of the spec: the duplicated expectation
`[(1,"a"), (1,"a")]` behaves exactly like `[(1,"a")]` against the two actual
rows `(1,"a"), (2,"b")` — both pass, the actual rows being a strict
superset. -/
theorem C8_witness :
    (run_includes_check exampleDb (some "SELECT id, name FROM users")
        [[Val.int 1, Val.str "a"], [Val.int 1, Val.str "a"]] =
      if ([[Val.int 1, Val.str "a"], [Val.int 1, Val.str "a"]] :
            List Row).toFinset \
          ([[Val.int 1, Val.str "a"], [Val.int 2, Val.str "b"]] :
            List Row).toFinset = ∅ then .passed
      else .failedMissingValues
        (([[Val.int 1, Val.str "a"], [Val.int 1, Val.str "a"]] :
            List Row).toFinset \
          ([[Val.int 1, Val.str "a"], [Val.int 2, Val.str "b"]] :
            List Row).toFinset)) ∧
    (run_includes_check exampleDb (some "SELECT id, name FROM users")
        [[Val.int 1, Val.str "a"], [Val.int 1, Val.str "a"]] = .passed ↔
      ([[Val.int 1, Val.str "a"], [Val.int 1, Val.str "a"]] :
          List Row).toFinset ⊆
        ([[Val.int 1, Val.str "a"], [Val.int 2, Val.str "b"]] :
          List Row).toFinset) ∧
    run_includes_check exampleDb (some "SELECT id, name FROM users")
        [[Val.int 1, Val.str "a"], [Val.int 1, Val.str "a"]] =
      run_includes_check exampleDb (some "SELECT id, name FROM users")
        [[Val.int 1, Val.str "a"]] :=
  C8_includes_check_semantics exampleDb exampleDb
    "SELECT id, name FROM users" "SELECT id, name FROM users"
    [[Val.int 1, Val.str "a"], [Val.int 1, Val.str "a"]]
    [[Val.int 1, Val.str "a"]]
    [[Val.int 1, Val.str "a"], [Val.int 2, Val.str "b"]]
    [[Val.int 1, Val.str "a"], [Val.int 2, Val.str "b"]]
    rfl rfl (by decide) rfl

/-- The dispatcher loop never raises on a check that satisfies the §3 data
model (a PRINTER check carries its query): every such check yields exactly
the output `checkOutput` computed from that check alone. -/
lemma runCheck_eq_ok (cc : ConnConfig) (db : Db) (v : CheckSpec)
    (h : v.vtype = "PRINTER" → v.query.isSome) :
    runCheck cc db v = .ok (checkOutput cc db v) := by
  have hne : ∀ e, runCheck cc db v ≠ .error e := by
    intro e hrc
    unfold runCheck at hrc
    by_cases hp : v.vtype = "PRINTER"
    · rw [if_pos hp] at hrc
      rcases hq : v.query with _ | q
      · have hsome := h hp
        rw [hq] at hsome
        simp at hsome
      · rw [hq] at hrc
        simp at hrc
    · rw [if_neg hp] at hrc
      split_ifs at hrc
  rcases hrc : runCheck cc db v with e | r
  · exact (hne e hrc).elim
  · unfold checkOutput
    rw [hrc]
    rfl

/-- On a list of checks satisfying the §3 data model, the dispatcher
completes and records the per-check outputs, in declaration order. -/
lemma runValidations_eq (cc : ConnConfig) (db : Db) (vs : List CheckSpec)
    (h : ∀ v ∈ vs, v.vtype = "PRINTER" → v.query.isSome) :
    runValidations cc db vs = .ok (dispatchResults cc db vs) := by
  induction vs with
  | nil => rfl
  | cons v vs ih =>
    have h1 := h v (List.mem_cons_self v vs)
    have h2 : ∀ u ∈ vs, u.vtype = "PRINTER" → u.query.isSome :=
      fun u hu => h u (List.mem_cons_of_mem v hu)
    simp [runValidations, runCheck_eq_ok cc db v h1, ih h2, dispatchResults]

/-- C9: the dispatcher executes a validation list in declaration order and
in full — on checks satisfying the §3 data model it completes with exactly
one output per check, the outputs of a concatenation are the concatenated
outputs, and each output is a function of its own check alone
(`dispatchResults` is a per-element `map`), so no failure or internal error
of a check in `vs1` can change what the checks of `vs2` produce. -/
theorem C9_dispatcher_isolation (cc : ConnConfig) (db : Db)
    (vs1 vs2 : List CheckSpec)
    (h : ∀ v ∈ vs1 ++ vs2, v.vtype = "PRINTER" → v.query.isSome) :
    runValidations cc db (vs1 ++ vs2) =
      .ok (dispatchResults cc db vs1 ++ dispatchResults cc db vs2) ∧
    runValidations cc db vs2 = .ok (dispatchResults cc db vs2) ∧
    (dispatchResults cc db (vs1 ++ vs2)).length = vs1.length + vs2.length := by
  have h2 : ∀ v ∈ vs2, v.vtype = "PRINTER" → v.query.isSome :=
    fun v hv => h v (List.mem_append_right vs1 hv)
  refine ⟨?_, runValidations_eq cc db vs2 h2, by simp [dispatchResults]⟩
  rw [runValidations_eq cc db (vs1 ++ vs2) h]
  simp [dispatchResults]

/-- C9, witness: `errorCheck` raises a query error on `exampleDb`, yet the
two checks after it still produce their outputs. -/
theorem C9_witness :
    runValidations ccMain exampleDb ([errorCheck] ++ [countCheck5, schemaCheck]) =
      .ok (dispatchResults ccMain exampleDb [errorCheck] ++
        dispatchResults ccMain exampleDb [countCheck5, schemaCheck]) ∧
    runValidations ccMain exampleDb [countCheck5, schemaCheck] =
      .ok (dispatchResults ccMain exampleDb [countCheck5, schemaCheck]) ∧
    (dispatchResults ccMain exampleDb
      ([errorCheck] ++ [countCheck5, schemaCheck])).length = 1 + 2 :=
  C9_dispatcher_isolation ccMain exampleDb [errorCheck]
    [countCheck5, schemaCheck] (by decide)

/-- C10: with an unsupported operator symbol, the COUNT_CHECK executor
returns before touching the database — its trace of issued queries is empty
and its whole result is the same against any two database handles, so the
database and cursor state are unchanged by the failed check. -/
theorem C10_unsupported_operator_no_query (db db2 : Db)
    (query : Option String) (value : Val) (s : String)
    (hs : s ∉ (["=", "!=", ">", ">=", "<", "<="] : List String)) :
    (run_count_check db query value (some s)).2 = [] ∧
    run_count_check db query value (some s) =
      run_count_check db2 query value (some s) := by
  have hop := OPERATORS_eq_none s hs
  constructor <;> simp [run_count_check, hop]

/-- C10, witness at the unsupported symbol `~`, against the example handle
and the always-raising handle. -/
theorem C10_witness :
    (run_count_check exampleDb (some "SELECT count(*) FROM users")
      (Val.int 3) (some "~")).2 = [] ∧
    run_count_check exampleDb (some "SELECT count(*) FROM users")
        (Val.int 3) (some "~") =
      run_count_check noDb (some "SELECT count(*) FROM users")
        (Val.int 3) (some "~") :=
  C10_unsupported_operator_no_query exampleDb noDb
    (some "SELECT count(*) FROM users") (Val.int 3) "~" (by decide)

end PgDataValidator
